import Mathlib

/-!
Verification of the resume-critiquer core logic (`src/main.py`).

The program is a single-session script: a ScoreEngine (`ats_score`), a
single-slot memo keyed by a content hash, a 10-second rate gate, and a
feedback generator (demo template or a Gemini call).  Python strings are
modelled as `List Char`; Python's exact float arithmetic in `ats_score`
(`int((hits / max(1, len(keywords))) * 100)`) is modelled as exact rational
arithmetic followed by truncation, i.e. natural-number floor division.
Wall-clock times (`time.time()`) are modelled as integers; external
library calls (md5, PyPDF2 / UTF-8 decoding, the Gemini SDK) are modelled
as parameters whose outcomes are part of the input environment.
-/

namespace ResumeCritiquer

/-- Bytes of an uploaded file (`uploaded_file.read()`). -/
abbrev Bytes := List Nat

/-- Model of Python's `str.lower()` restricted to the characters that occur
here (ASCII): lower-case every character. -/
def pyLower (s : List Char) : List Char := s.map Char.toLower

/-- Helper for `pySplit`: accumulates the current word (reversed) while
scanning; whitespace ends the current word, and empty words are dropped,
exactly the behaviour of Python's `str.split()` with no argument. -/
def pySplitAux : List Char → List Char → List (List Char)
  | [], acc => if acc = [] then [] else [acc.reverse]
  | c :: cs, acc =>
    if c.isWhitespace then
      if acc = [] then pySplitAux cs [] else acc.reverse :: pySplitAux cs []
    else
      pySplitAux cs (c :: acc)

/-- Model of Python's `str.split()` (no argument): split on runs of
whitespace, discarding empty pieces. -/
def pySplit (s : List Char) : List (List Char) := pySplitAux s []

/-- Model of Python's `k in text` for strings: `needle` occurs as a
contiguous substring of `hay`. -/
def isSubstr (needle hay : List Char) : Bool :=
  hay.tails.any (fun t => needle.isPrefixOf t)

/-- Model of Python's `str.strip()`: drop leading and trailing whitespace. -/
def pyStrip (s : List Char) : List Char :=
  ((s.dropWhile Char.isWhitespace).reverse.dropWhile Char.isWhitespace).reverse

/-- Function `ats_score` from `src/main.py` lines 82-89:

    if not job_role: return 0
    keywords = job_role.lower().split()
    text = text.lower()
    hits = sum(1 for k in keywords if k in text)
    return min(100, int((hits / max(1, len(keywords))) * 100))

The float expression `int((hits / max(1, len(keywords))) * 100)` is modelled
as the exact value `(hits * 100) / max 1 keywords.length` in `Nat` (floor
division).  This idealises the double-precision rounding of the source: the
two agree at `hits = 0`, at the 3-keyword worked example used below, and at
every input where a theorem below evaluates the formula, but they can differ
elsewhere (for 29 hits of 50 keywords the double computation truncates to
57 while the exact floor is 58), so no theorem below asserts this closed
form of the score for all inputs. -/
def ats_score (text job_role : List Char) : Nat :=
  if job_role = [] then 0
  else
    let keywords := pySplit (pyLower job_role)
    let t := pyLower text
    let hits := (keywords.filter (fun k => isSubstr k t)).length
    min 100 ((hits * 100) / max 1 keywords.length)

/-- The mode selector (`st.selectbox("Choose Mode", ["Demo Mode", "Google Gemini (AI)"])`),
which can only take these two values. -/
inductive Mode
  | demoMode
  | googleGemini
deriving DecidableEq, Repr

/-- An uploaded file: its raw bytes (`uploaded_file.read()`). -/
structure FileData where
  bytes : Bytes
deriving DecidableEq, Repr

/-- The session state of `src/main.py` lines 50-57: the rate-limit
timestamp and the single-slot cache (hash of the last fully analyzed file
and the feedback produced for it). -/
structure SessionState where
  last_request_time : Int
  last_file_hash : Option Nat
  cached_response : Option (List Char)
deriving DecidableEq, Repr

/-- Initial session state (lines 50-57): timestamp `0`, no cache. -/
def initState : SessionState :=
  { last_request_time := 0, last_file_hash := none, cached_response := none }

/-- The inputs to one press of the "Analyze Resume" button, together with
the outcomes of the external calls the run would make (these are inputs to
the model because they are produced by outside libraries / services, not by
the code under verification):
* `uploadedFile` — the file in the uploader widget, if any;
* `job_role` — the text-input string (empty when left blank);
* `ai_provider` — the mode selector;
* `now` — `time.time()` at the start of the run;
* `extractResult` — what `extract_text_from_file` would yield for this
  file: the extracted text, or an exception message (PyPDF2 parse error /
  UTF-8 decode error);
* `genaiAvailable` — whether `import google.generativeai` succeeded
  (`genai` is not `None`);
* `apiKeyPresent` — whether `GOOGLE_API_KEY` is set (truthy);
* `providerResult` — what `model.generate_content(prompt).text` would
  yield: the response text, or an exception message. -/
structure AnalyzeInput where
  uploadedFile : Option FileData
  job_role : List Char
  ai_provider : Mode
  now : Int
  extractResult : Except (List Char) (List Char)
  genaiAvailable : Bool
  apiKeyPresent : Bool
  providerResult : Except (List Char) (List Char)
deriving Repr

/-- The observable steps a run performs, in program order.  These record
which pieces of work (hashing, extraction, scoring, prompt construction,
the provider availability check, the remote call, the cache write) actually
happen on each control path of the `if analyze:` block. -/
inductive Event
  | rateChecked
  | hashComputed
  | cacheHit
  | timestampUpdated
  | extracted
  | emptyChecked
  | scoreComputed
  | promptConstructed
  | providerChecked
  | providerCalled
  | cacheUpdated
deriving DecidableEq, Repr

/-- How one run of the `if analyze:` block terminates. -/
inductive AnalyzeResult
  | noFile
  | tooSoon
  | cached (feedback : Option (List Char))
  | emptyDocument
  | providerUnavailable
  | errorCaught (msg : List Char)
  | done (feedback : List Char) (score : Nat)
deriving DecidableEq, Repr

/-- Returns `true` exactly on a fully completed analysis (`done`). -/
def AnalyzeResult.isDone : AnalyzeResult → Bool
  | .done _ _ => true
  | _ => false

/-- The hard-coded Demo Mode feedback block (lines 161-169). -/
def demoOutput : List Char :=
  "\n## Resume Feedback (Demo Mode)\n\n• Add a strong professional summary at the top\n• Use measurable achievements instead of responsibilities\n• Improve keyword alignment with your job role\n• Group technical skills into categories\n• Keep bullet points under 2 lines for readability\n".toList

/-- One run of the `if analyze:` block (`src/main.py` lines 92-189), as a
pure step function: given the digest function (`hashlib.md5(...).hexdigest()`,
modelled abstractly as a deterministic `Bytes → Nat` parameter), the session
state, and the inputs, it returns how the run ends, the session state it
leaves behind, and the ordered list of steps it performed.

Control flow mirrors the source exactly: missing file check (93), rate
gate (99) before hashing (106) and the cache check (108), timestamp update
(113) only after both gates, extraction (117), empty-content check (119),
scoring (128), prompt construction (141), then the mode dispatch (160) with
the Gemini availability check (172), the remote call (177), and the cache
write (181-182) only after a response was obtained.  `st.stop()` ends the
run; the `except Exception` handler (188) reports the exception message and
leaves the cache untouched. -/
def analyze (digest : Bytes → Nat) (s : SessionState) (inp : AnalyzeInput) :
    AnalyzeResult × SessionState × List Event :=
  match inp.uploadedFile with
  | none => (.noFile, s, [])
  | some file =>
    let current_time := inp.now
    if current_time - s.last_request_time < 10 then
      (.tooSoon, s, [.rateChecked])
    else
      let current_hash := digest file.bytes
      if s.last_file_hash = some current_hash then
        (.cached s.cached_response, s, [.rateChecked, .hashComputed, .cacheHit])
      else
        let s1 : SessionState := { s with last_request_time := current_time }
        match inp.extractResult with
        | .error msg =>
          (.errorCaught msg, s1,
            [.rateChecked, .hashComputed, .timestampUpdated, .extracted])
        | .ok file_content =>
          if pyStrip file_content = [] then
            (.emptyDocument, s1,
              [.rateChecked, .hashComputed, .timestampUpdated, .extracted, .emptyChecked])
          else
            let score := ats_score file_content inp.job_role
            let ev1 : List Event :=
              [.rateChecked, .hashComputed, .timestampUpdated, .extracted,
               .emptyChecked, .scoreComputed, .promptConstructed]
            match inp.ai_provider with
            | .demoMode =>
              let output_text := demoOutput
              let s2 : SessionState :=
                { s1 with last_file_hash := some current_hash,
                          cached_response := some output_text }
              (.done output_text score, s2, ev1 ++ [.cacheUpdated])
            | .googleGemini =>
              if !inp.genaiAvailable || !inp.apiKeyPresent then
                (.providerUnavailable, s1, ev1 ++ [.providerChecked])
              else
                match inp.providerResult with
                | .error msg =>
                  (.errorCaught msg, s1, ev1 ++ [.providerChecked, .providerCalled])
                | .ok output_text =>
                  let s2 : SessionState :=
                    { s1 with last_file_hash := some current_hash,
                              cached_response := some output_text }
                  (.done output_text score, s2,
                    ev1 ++ [.providerChecked, .providerCalled, .cacheUpdated])

/-- Predicate `occursBefore a b tr`: the first occurrence of `a` in `tr`
is followed (strictly later) by an occurrence of `b`. -/
def occursBefore (a b : Event) (tr : List Event) : Bool :=
  match tr with
  | [] => false
  | e :: rest => if e = a then rest.contains b else occursBefore a b rest

/-- The spec's hit count: keywords from splitting the (case-insensitive)
job role on whitespace, counted when present as substrings of the
lower-cased resume text. -/
def specHits (text job_role : List Char) : Nat :=
  ((pySplit (pyLower job_role)).filter (fun k => isSubstr k (pyLower text))).length

/-- The spec's keyword count: number of whitespace-separated keywords of
the job role. -/
def specKeywordCount (job_role : List Char) : Nat :=
  (pySplit (pyLower job_role)).length

/-- The score formula exactly as the spec words it — `round(100 * hits /
keywordCount)`, clamped to 100 — with `round` realised as round-half-up on
nonnegative rationals: `round (a / b) = (2 a + b) / (2 b)` in floor
division.  Written to be compared with `ats_score`, which the source
computes by truncation instead. -/
def specScoreRound (text job_role : List Char) : Nat :=
  if job_role = [] then 0
  else
    let hits := specHits text job_role
    let kc := max 1 (specKeywordCount job_role)
    min 100 ((2 * (100 * hits) + kc) / (2 * kc))

/-- A resume text containing "data" and "engineer" but not "senior". -/
def c1ExampleText : List Char := "worked as a data engineer on pipelines".toList

/-- The job-role string of the spec's worked example. -/
def c1ExampleRole : List Char := "Senior Data Engineer".toList

/-- Lower-casing a whitespace character leaves it unchanged. -/
theorem toLower_of_isWhitespace {c : Char} (h : c.isWhitespace = true) :
    c.toLower = c := by
  simp only [Char.isWhitespace, Bool.or_eq_true, decide_eq_true_eq] at h
  rcases h with ((h | h) | h) | h <;> subst h <;> decide

/-- Splitting an all-whitespace string yields no words. -/
theorem pySplitAux_nil_of_all_ws :
    ∀ {s : List Char}, (∀ c ∈ s, c.isWhitespace = true) → pySplitAux s [] = [] := by
  intro s
  induction s with
  | nil => intro _; rfl
  | cons c cs ih =>
    intro h
    have hc : c.isWhitespace = true := h c (List.mem_cons_self c cs)
    simp only [pySplitAux, hc, if_true, if_pos rfl]
    exact ih (fun d hd => h d (List.mem_cons_of_mem c hd))

/-- Lower-casing then splitting an all-whitespace string yields no words. -/
theorem pySplit_pyLower_nil_of_all_ws {s : List Char}
    (h : ∀ c ∈ s, c.isWhitespace = true) : pySplit (pyLower s) = [] := by
  apply pySplitAux_nil_of_all_ws
  intro d hd
  rcases List.mem_map.mp hd with ⟨c, hc, rfl⟩
  rw [toLower_of_isWhitespace (h c hc)]
  exact h c hc

/-- Claim C8: for every resume text, if the job-role string is empty,
absent, or consists only of whitespace, `ats_score` returns 0. -/
theorem ats_score_zero_of_blank_role (text job_role : List Char)
    (h : job_role = [] ∨ ∀ c ∈ job_role, c.isWhitespace = true) :
    ats_score text job_role = 0 := by
  by_cases hz : job_role = []
  · simp [ats_score, hz]
  · rcases h with h | h
    · exact absurd h hz
    · have hsplit : pySplit (pyLower job_role) = [] := pySplit_pyLower_nil_of_all_ws h
      simp [ats_score, hz, hsplit]

/-- Claim C8, witness: a whitespace-only job role scores 0 on a concrete
text. -/
theorem ats_score_zero_of_blank_role_witness :
    ats_score "some resume text".toList "   ".toList = 0 :=
  ats_score_zero_of_blank_role "some resume text".toList "   ".toList
    (Or.inr (by decide))

/-- Claim C9: `ats_score` is total — the divisor `max 1 keywords.length` is
always positive, so the division is safe — and its value always lies in
[0, 100] (it is a natural number bounded by the `min 100` clamp). -/
theorem ats_score_total_in_range (text job_role : List Char) :
    0 < max 1 (pySplit (pyLower job_role)).length ∧ ats_score text job_role ≤ 100 := by
  constructor
  · exact Nat.lt_of_lt_of_le Nat.one_pos (Nat.le_max_left _ _)
  · unfold ats_score
    split
    · exact Nat.zero_le 100
    · exact Nat.min_le_left _ _

/-- Claim C1, counterexample: on the spec's own worked example — job role
"Senior Data Engineer", a text containing "data" and "engineer" but not
"senior" — the code's score is 66, not the 67 the rounding formula of the
claim yields (`specScoreRound` realises the claim's formula and indeed
gives 67). -/
theorem ats_score_example_is_66_not_67 :
    ats_score c1ExampleText c1ExampleRole = 66 ∧
    specScoreRound c1ExampleText c1ExampleRole = 67 ∧
    ats_score c1ExampleText c1ExampleRole ≠ 67 := by decide

/-- Claim C1, amended: on the spec's worked example — job role
"Senior Data Engineer", a text containing "data" and "engineer" but not
"senior" — 2 of the 3 keywords match and the score is 66, not 67: the code
truncates `(2/3)*100` via `int(...)` rather than rounding.  At this input
double and exact arithmetic agree (`int(66.66...)` is 66 either way), so
the model is exact here.  The claim's universal `round(100 * hits /
keywordCount)` formula is withdrawn without a universal replacement, since
the source's float truncation does not follow any exact closed form at all
inputs. -/
theorem ats_score_example_truncates :
    specHits c1ExampleText c1ExampleRole = 2 ∧
    specKeywordCount c1ExampleRole = 3 ∧
    ats_score c1ExampleText c1ExampleRole = 66 := by decide

/-- A concrete stand-in for the md5 digest parameter in the witnesses
below (any deterministic `Bytes → Nat` function instantiates the model). -/
def md5Ex : Bytes → Nat := fun b => b.foldl (fun a x => a * 256 + x) 7

/-- A concrete uploaded file. -/
def fileEx : FileData := ⟨[1, 2, 3]⟩

/-- A second, different concrete uploaded file. -/
def fileEx2 : FileData := ⟨[9, 9]⟩

/-- A session state as left behind by an analysis of `fileEx` accepted at
time 100 that completed and cached its feedback. -/
def stEx : SessionState :=
  { last_request_time := 100,
    last_file_hash := some (md5Ex fileEx.bytes),
    cached_response := some "old feedback".toList }

/-- A first trigger at time 100 on `fileEx` in Demo Mode. -/
def inpFirstEx : AnalyzeInput :=
  { uploadedFile := some fileEx,
    job_role := "data engineer".toList,
    ai_provider := .demoMode,
    now := 100,
    extractResult := .ok "a data engineer resume".toList,
    genaiAvailable := false,
    apiKeyPresent := false,
    providerResult := .ok "remote feedback".toList }

/-- A second trigger 2 seconds later on the different file `fileEx2`. -/
def inpSecondEx : AnalyzeInput :=
  { inpFirstEx with uploadedFile := some fileEx2, now := 102 }

/-- A re-trigger 2 seconds after `stEx`'s accepted request, on the same
file `fileEx` whose hash is cached. -/
def inpRerunEx : AnalyzeInput :=
  { inpFirstEx with now := 102 }

/-- A re-trigger on the cached file after the 10-second window. -/
def inpRerunLaterEx : AnalyzeInput :=
  { inpFirstEx with now := 111 }

/-- Claim C3: whenever a file is present and `now - last_request_time < 10`,
the run rejects with the too-soon warning and stops: the session state is
untouched and the only step performed is the rate check — no hashing, no
extraction, no scoring, no provider interaction — regardless of the cache. -/
theorem tooSoon_rejects_regardless_of_cache (digest : Bytes → Nat)
    (s : SessionState) (inp : AnalyzeInput) (file : FileData)
    (hf : inp.uploadedFile = some file)
    (ht : inp.now - s.last_request_time < 10) :
    analyze digest s inp = (.tooSoon, s, [.rateChecked]) := by
  simp [analyze, hf, ht]

/-- Claim C3, witness: a first trigger at time 100 on `fileEx` completes;
a second trigger 2 seconds later on the different file `fileEx2` is
rejected as too soon. -/
theorem tooSoon_rejects_regardless_of_cache_witness :
    analyze md5Ex ((analyze md5Ex initState inpFirstEx).2.1) inpSecondEx =
      (.tooSoon, (analyze md5Ex initState inpFirstEx).2.1, [.rateChecked]) :=
  tooSoon_rejects_regardless_of_cache md5Ex
    ((analyze md5Ex initState inpFirstEx).2.1) inpSecondEx fileEx2 rfl (by decide)

/-- Claim C6: a trigger that passes the rate gate and whose content hash
equals the stored cache hash short-circuits: the cached feedback text is
returned, the session state (including `last_request_time`) is unchanged,
and the only steps performed are the rate check, the hashing, and the
cache lookup — no extraction, scoring, or provider call. -/
theorem cache_hit_short_circuits (digest : Bytes → Nat)
    (s : SessionState) (inp : AnalyzeInput) (file : FileData)
    (hf : inp.uploadedFile = some file)
    (ht : ¬ inp.now - s.last_request_time < 10)
    (hh : s.last_file_hash = some (digest file.bytes)) :
    analyze digest s inp =
      (.cached s.cached_response, s, [.rateChecked, .hashComputed, .cacheHit]) := by
  simp [analyze, hf, ht, hh]

/-- Claim C6, witness: re-running on the cached file 11 seconds after the
last accepted request returns the cached feedback and leaves the state
unchanged. -/
theorem cache_hit_short_circuits_witness :
    analyze md5Ex stEx inpRerunLaterEx =
      (.cached stEx.cached_response, stEx, [.rateChecked, .hashComputed, .cacheHit]) :=
  cache_hit_short_circuits md5Ex stEx inpRerunLaterEx fileEx rfl
    (by decide) (by decide)

/-- Claim C7: when the gates pass and extraction yields text that strips to
nothing (empty or whitespace-only), the run fails with the empty-document
error (the spec's `UnreadableDocument` case for empty extracted text): no
score is computed and the cache is untouched. -/
theorem empty_document_rejected (digest : Bytes → Nat)
    (s : SessionState) (inp : AnalyzeInput) (file : FileData) (content : List Char)
    (hf : inp.uploadedFile = some file)
    (ht : ¬ inp.now - s.last_request_time < 10)
    (hc : ¬ s.last_file_hash = some (digest file.bytes))
    (hx : inp.extractResult = .ok content)
    (he : pyStrip content = []) :
    (analyze digest s inp).1 = .emptyDocument ∧
    .scoreComputed ∉ (analyze digest s inp).2.2 ∧
    (analyze digest s inp).2.1.last_file_hash = s.last_file_hash ∧
    (analyze digest s inp).2.1.cached_response = s.cached_response := by
  simp [analyze, hf, ht, hc, hx, he]

/-- Claim C7, witness: a whitespace-only extraction on a fresh session is
rejected as an empty document without scoring. -/
theorem empty_document_rejected_witness :
    (analyze md5Ex initState
        { inpFirstEx with now := 50, extractResult := .ok "  \n ".toList }).1 =
      .emptyDocument ∧
    .scoreComputed ∉ (analyze md5Ex initState
        { inpFirstEx with now := 50, extractResult := .ok "  \n ".toList }).2.2 ∧
    (analyze md5Ex initState
        { inpFirstEx with now := 50, extractResult := .ok "  \n ".toList }).2.1.last_file_hash =
      initState.last_file_hash ∧
    (analyze md5Ex initState
        { inpFirstEx with now := 50, extractResult := .ok "  \n ".toList }).2.1.cached_response =
      initState.cached_response :=
  empty_document_rejected md5Ex initState
    { inpFirstEx with now := 50, extractResult := .ok "  \n ".toList }
    fileEx "  \n ".toList rfl (by decide) (by decide) rfl (by decide)

/-- Claim C2, counterexample: with the cache holding the feedback for
`fileEx` (state `stEx`, last accepted request at time 100), re-running on
the same unchanged file 2 seconds later does NOT return the cached
feedback — the rate check runs before the cache check, so the run is
rejected as too soon. -/
theorem rerun_within_window_rejected_not_cached :
    (analyze md5Ex stEx inpRerunEx).1 = .tooSoon ∧
    (analyze md5Ex stEx inpRerunEx).1 ≠ .cached stEx.cached_response := by decide

/-- Claim C2, amended: re-running analysis on an unchanged document (same
content hash) within 10 seconds of the last accepted request is rejected
with the too-soon warning and does not invoke the AI provider; the cached
feedback text is returned unchanged (again without a provider call) only
when the re-run happens at or after the 10-second window. -/
theorem rerun_same_document_gate_behaviour (digest : Bytes → Nat)
    (s : SessionState) (inp : AnalyzeInput) (file : FileData)
    (hf : inp.uploadedFile = some file)
    (hh : s.last_file_hash = some (digest file.bytes)) :
    (inp.now - s.last_request_time < 10 →
      analyze digest s inp = (.tooSoon, s, [.rateChecked])) ∧
    (¬ inp.now - s.last_request_time < 10 →
      analyze digest s inp =
        (.cached s.cached_response, s, [.rateChecked, .hashComputed, .cacheHit])) := by
  constructor
  · intro ht
    simp [analyze, hf, ht]
  · intro ht
    simp [analyze, hf, ht, hh]

/-- Claim C2, amended, witness: on `stEx` and the unchanged file, the
2-second re-run is rejected while the 11-second re-run returns the cached
feedback. -/
theorem rerun_same_document_gate_behaviour_witness :
    analyze md5Ex stEx inpRerunEx = (.tooSoon, stEx, [.rateChecked]) ∧
    analyze md5Ex stEx inpRerunLaterEx =
      (.cached stEx.cached_response, stEx, [.rateChecked, .hashComputed, .cacheHit]) :=
  ⟨(rerun_same_document_gate_behaviour md5Ex stEx inpRerunEx fileEx rfl
      (by decide)).1 (by decide),
   (rerun_same_document_gate_behaviour md5Ex stEx inpRerunLaterEx fileEx rfl
      (by decide)).2 (by decide)⟩

/-- A trigger in Google Gemini mode with the SDK not importable and no API
key, on a fresh session with readable non-empty content. -/
def gemInpEx : AnalyzeInput :=
  { inpFirstEx with ai_provider := .googleGemini, now := 50 }

/-- Claim C4, counterexample: in Gemini mode with the provider not
configured, the run does fail with the provider-unavailable error, but the
availability check does NOT happen before the prompt is constructed: the
trace shows `promptConstructed` strictly before `providerChecked`, and
never the converse. -/
theorem provider_check_after_prompt_cex :
    (analyze md5Ex initState gemInpEx).1 = .providerUnavailable ∧
    occursBefore .promptConstructed .providerChecked
      (analyze md5Ex initState gemInpEx).2.2 = true ∧
    occursBefore .providerChecked .promptConstructed
      (analyze md5Ex initState gemInpEx).2.2 = false := by decide

/-- Claim C4, amended: in Gemini mode with the client library or credential
missing, any run that reaches the mode dispatch (file present, rate gate
passed, no cache hit, extraction succeeded, non-empty content) fails with
the provider-unavailable error and stops without calling the provider or
touching the cache — but the availability check happens only AFTER the
score is computed and the prompt is constructed. -/
theorem provider_unavailable_after_prompt (digest : Bytes → Nat)
    (s : SessionState) (inp : AnalyzeInput) (file : FileData) (content : List Char)
    (hf : inp.uploadedFile = some file)
    (ht : ¬ inp.now - s.last_request_time < 10)
    (hc : ¬ s.last_file_hash = some (digest file.bytes))
    (hx : inp.extractResult = .ok content)
    (hne : ¬ pyStrip content = [])
    (hm : inp.ai_provider = .googleGemini)
    (hna : (!inp.genaiAvailable || !inp.apiKeyPresent) = true) :
    analyze digest s inp =
      (.providerUnavailable, { s with last_request_time := inp.now },
       [.rateChecked, .hashComputed, .timestampUpdated, .extracted, .emptyChecked,
        .scoreComputed, .promptConstructed, .providerChecked]) ∧
    occursBefore .promptConstructed .providerChecked
      (analyze digest s inp).2.2 = true ∧
    .providerCalled ∉ (analyze digest s inp).2.2 := by
  have hmain : analyze digest s inp =
      (.providerUnavailable, { s with last_request_time := inp.now },
       [.rateChecked, .hashComputed, .timestampUpdated, .extracted, .emptyChecked,
        .scoreComputed, .promptConstructed, .providerChecked]) := by
    simp [analyze, hf, ht, hc, hx, hne, hm, hna]
  refine ⟨hmain, ?_, ?_⟩
  · rw [hmain]; exact rfl
  · rw [hmain]; simp

/-- Claim C4, amended, witness: the concrete unconfigured-Gemini run. -/
theorem provider_unavailable_after_prompt_witness :
    analyze md5Ex initState gemInpEx =
      (.providerUnavailable, { initState with last_request_time := gemInpEx.now },
       [.rateChecked, .hashComputed, .timestampUpdated, .extracted, .emptyChecked,
        .scoreComputed, .promptConstructed, .providerChecked]) ∧
    occursBefore .promptConstructed .providerChecked
      (analyze md5Ex initState gemInpEx).2.2 = true ∧
    .providerCalled ∉ (analyze md5Ex initState gemInpEx).2.2 :=
  provider_unavailable_after_prompt md5Ex initState gemInpEx fileEx
    "a data engineer resume".toList rfl (by decide) (by decide) rfl
    (by decide) rfl (by decide)

/-- Claim C5: the cache is written only by a fully completed analysis.  On
every run, (1) if the run does not end in `done` — rejected, cache hit,
extraction failure, empty document, provider unavailable, provider error —
the cache fields are exactly what they were before, and (2) if it ends in
`done fb _`, the cache holds precisely the hash of the analyzed file and
the feedback `fb` of this completed analysis. -/
theorem cache_written_only_on_completion (digest : Bytes → Nat)
    (s : SessionState) (inp : AnalyzeInput) :
    ((analyze digest s inp).1.isDone = false →
      (analyze digest s inp).2.1.last_file_hash = s.last_file_hash ∧
      (analyze digest s inp).2.1.cached_response = s.cached_response) ∧
    (∀ fb sc, (analyze digest s inp).1 = .done fb sc →
      ∃ file, inp.uploadedFile = some file ∧
        (analyze digest s inp).2.1.last_file_hash = some (digest file.bytes) ∧
        (analyze digest s inp).2.1.cached_response = some fb) := by
  rcases hf : inp.uploadedFile with _ | file
  · simp [analyze, hf, AnalyzeResult.isDone]
  · by_cases h1 : inp.now - s.last_request_time < 10
    · simp [analyze, hf, h1, AnalyzeResult.isDone]
    · by_cases h2 : s.last_file_hash = some (digest file.bytes)
      · simp [analyze, hf, h1, h2, AnalyzeResult.isDone]
      · rcases hx : inp.extractResult with msg | content
        · simp [analyze, hf, h1, h2, hx, AnalyzeResult.isDone]
        · by_cases h3 : pyStrip content = []
          · simp [analyze, hf, h1, h2, hx, h3, AnalyzeResult.isDone]
          · rcases hm : inp.ai_provider
            · simp [analyze, hf, h1, h2, hx, h3, hm, AnalyzeResult.isDone]
            · cases hg : (!inp.genaiAvailable || !inp.apiKeyPresent)
              · rcases hp : inp.providerResult with msg | out
                · simp [analyze, hf, h1, h2, hx, h3, hm, hg, hp, AnalyzeResult.isDone]
                · simp [analyze, hf, h1, h2, hx, h3, hm, hg, hp, AnalyzeResult.isDone]
              · simp [analyze, hf, h1, h2, hx, h3, hm, hg, AnalyzeResult.isDone]

/-- Claim C5, witness: a Gemini run whose remote call fails leaves the
populated cache of `stEx` exactly as it was. -/
theorem cache_written_only_on_completion_witness :
    (analyze md5Ex stEx
        { gemInpEx with uploadedFile := some fileEx2, now := 120,
                        genaiAvailable := true, apiKeyPresent := true,
                        providerResult := .error "429 quota exceeded".toList }).2.1.last_file_hash =
      stEx.last_file_hash ∧
    (analyze md5Ex stEx
        { gemInpEx with uploadedFile := some fileEx2, now := 120,
                        genaiAvailable := true, apiKeyPresent := true,
                        providerResult := .error "429 quota exceeded".toList }).2.1.cached_response =
      stEx.cached_response :=
  (cache_written_only_on_completion md5Ex stEx
      { gemInpEx with uploadedFile := some fileEx2, now := 120,
                      genaiAvailable := true, apiKeyPresent := true,
                      providerResult := .error "429 quota exceeded".toList }).1
    (by decide)

/-- Claim C10: the two cache fields travel together.  Both start `none`
(lines 53-57); every run preserves "last_file_hash is set iff
cached_response is set" (they are only assigned together, lines 181-182);
and consequently on a cache hit the returned feedback is always a present
(`some`) text to render. -/
theorem cache_fields_set_together :
    (initState.last_file_hash = none ∧ initState.cached_response = none) ∧
    ∀ (digest : Bytes → Nat) (s : SessionState) (inp : AnalyzeInput),
      s.last_file_hash.isSome = s.cached_response.isSome →
      ((analyze digest s inp).2.1.last_file_hash.isSome =
          (analyze digest s inp).2.1.cached_response.isSome ∧
       ∀ fb, (analyze digest s inp).1 = .cached fb → fb.isSome = true) := by
  refine ⟨⟨rfl, rfl⟩, ?_⟩
  intro digest s inp hinv
  rcases hf : inp.uploadedFile with _ | file
  · simp [analyze, hf, hinv]
  · by_cases h1 : inp.now - s.last_request_time < 10
    · simp [analyze, hf, h1, hinv]
    · by_cases h2 : s.last_file_hash = some (digest file.bytes)
      · have hcr : s.cached_response.isSome = true := by rw [← hinv, h2]; rfl
        refine ⟨by simp [analyze, hf, h1, h2, hcr], ?_⟩
        intro fb hfb
        simp [analyze, hf, h1, h2] at hfb
        rw [← hfb]
        exact hcr
      · rcases hx : inp.extractResult with msg | content
        · simp [analyze, hf, h1, h2, hx, hinv]
        · by_cases h3 : pyStrip content = []
          · simp [analyze, hf, h1, h2, hx, h3, hinv]
          · rcases hm : inp.ai_provider
            · simp [analyze, hf, h1, h2, hx, h3, hm]
            · cases hg : (!inp.genaiAvailable || !inp.apiKeyPresent)
              · rcases hp : inp.providerResult with msg | out
                · simp [analyze, hf, h1, h2, hx, h3, hm, hg, hp, hinv]
                · simp [analyze, hf, h1, h2, hx, h3, hm, hg, hp]
              · simp [analyze, hf, h1, h2, hx, h3, hm, hg, hinv]

/-- Claim C10, witness: on `stEx` (both cache fields set) a cache hit
preserves the invariant and returns a present feedback text. -/
theorem cache_fields_set_together_witness :
    ((analyze md5Ex stEx inpRerunLaterEx).2.1.last_file_hash.isSome =
        (analyze md5Ex stEx inpRerunLaterEx).2.1.cached_response.isSome ∧
     ∀ fb, (analyze md5Ex stEx inpRerunLaterEx).1 = .cached fb → fb.isSome = true) :=
  cache_fields_set_together.2 md5Ex stEx inpRerunLaterEx (by decide)

end ResumeCritiquer
